import Mathlib

/-!
Verification of the configuration resolver in `src/config.ts` of the
clickup-mcp-server repository.  The resolver tokenizes `--env KEY=VALUE`
command-line pairs, merges them with environment variables and built-in
defaults, coerces the raw strings into typed values, and validates the
required credentials unless OAuth mode is enabled.

The embedding below mirrors the TypeScript source line by line:
JavaScript `string | undefined` values become `Option String`, the JS
truthiness of a string (non-empty) is `jsTruthy`, and JS `a || b`
fallback chains become `jsOr`.
-/

/-- The log levels of `src/config.ts` (enum `LogLevel`, lines 41-47). -/
inductive LogLevel where
  | TRACE
  | DEBUG
  | INFO
  | WARN
  | ERROR
deriving DecidableEq, Repr

/-- The CLI-derived mapping built by the argument loop of
`src/config.ts` lines 20-38 (the `envArgs` object).  Each field is
`none` until a recognized `--env KEY=VALUE` pair assigns it; an
assignment stores the (possibly missing) second segment of the split. -/
structure EnvArgs where
  clickupApiKey : Option String := none
  clickupTeamId : Option String := none
  documentSupport : Option String := none
  logLevel : Option String := none
  disabledTools : Option String := none
  enableSSE : Option String := none
  enableOAuth : Option String := none
  port : Option String := none
deriving DecidableEq, Repr

/-- The environment snapshot: the `process.env` variables that
`src/config.ts` reads.  `none` models an unset variable. -/
structure Env where
  CLICKUP_API_KEY : Option String := none
  CLICKUP_TEAM_ID : Option String := none
  ENABLE_SPONSOR_MESSAGE : Option String := none
  DOCUMENT_SUPPORT : Option String := none
  DOCUMENT_MODULE : Option String := none
  DOCUMENT_MODEL : Option String := none
  LOG_LEVEL : Option String := none
  DISABLED_TOOLS : Option String := none
  DISABLED_COMMANDS : Option String := none
  ENABLE_SSE : Option String := none
  ENABLE_OAUTH : Option String := none
  PORT : Option String := none
deriving DecidableEq, Repr

/-- An `EnvArgs` with no key assigned (the initial `envArgs = {}`). -/
def emptyEnvArgs : EnvArgs := {}

/-- An environment with no variable set. -/
def emptyEnv : Env := {}

/-- Character-level worker for JavaScript `String.prototype.split` with
a one-character separator: cut the remaining characters at every
occurrence of `sep`, accumulating the current segment in reverse. -/
def jsSplitAux (sep : Char) : List Char → List Char → List String
  | [], acc => [String.mk acc.reverse]
  | c :: rest, acc =>
    if c = sep then String.mk acc.reverse :: jsSplitAux sep rest []
    else jsSplitAux sep rest (c :: acc)

/-- JavaScript `s.split(sep)` for a one-character separator `sep`: the
empty string yields `[""]`, and a separator at either end or two
adjacent separators yield empty segments, exactly as in JS. -/
def jsSplit (sep : Char) (s : String) : List String :=
  jsSplitAux sep s.toList []

/-- JavaScript `s.trim()`: strip leading and trailing whitespace
characters from both ends (the source only ever trims ASCII input). -/
def jsTrim (s : String) : String :=
  String.mk (((s.toList.dropWhile Char.isWhitespace).reverse.dropWhile
    Char.isWhitespace).reverse)

/-- JavaScript `s.toUpperCase()` on the ASCII strings the source
compares against: upper-case every character. -/
def jsToUpper (s : String) : String :=
  String.mk (s.toList.map Char.toUpper)

/-- Models `const [key, value] = token.split('=')` of `src/config.ts`
line 24: JavaScript `split` cuts on every `=`, and the destructuring
keeps only the first two segments, so `value` is the text between the
first and the second `=` (or missing when the token has no `=`). -/
def splitEq (tok : String) : String × Option String :=
  match jsSplit '=' tok with
  | [] => ("", none)
  | [k] => (k, none)
  | k :: v :: _ => (k, some v)

/-- One iteration body of the argument loop (`src/config.ts` lines
24-35): split the token following `--env` and assign the value to the
field of the recognized key, if any.  Later assignments overwrite
earlier ones because `envArgs` is a mutable object. -/
def applyPair (m : EnvArgs) (tok : String) : EnvArgs :=
  let kv := splitEq tok
  let m := if kv.1 = "CLICKUP_API_KEY" then { m with clickupApiKey := kv.2 } else m
  let m := if kv.1 = "CLICKUP_TEAM_ID" then { m with clickupTeamId := kv.2 } else m
  let m := if kv.1 = "DOCUMENT_SUPPORT" then { m with documentSupport := kv.2 } else m
  let m := if kv.1 = "DOCUMENT_MODEL" then { m with documentSupport := kv.2 } else m
  let m := if kv.1 = "DOCUMENT_MODULE" then { m with documentSupport := kv.2 } else m
  let m := if kv.1 = "LOG_LEVEL" then { m with logLevel := kv.2 } else m
  let m := if kv.1 = "DISABLED_TOOLS" then { m with disabledTools := kv.2 } else m
  let m := if kv.1 = "DISABLED_COMMANDS" then { m with disabledTools := kv.2 } else m
  let m := if kv.1 = "ENABLE_SSE" then { m with enableSSE := kv.2 } else m
  let m := if kv.1 = "ENABLE_OAUTH" then { m with enableOAuth := kv.2 } else m
  let m := if kv.1 = "PORT" then { m with port := kv.2 } else m
  m

/-- The argument scanning loop of `src/config.ts` lines 22-38: when
`args[i]` is the literal `--env` and a next token exists, that next
token is consumed as the KEY=VALUE token and the index skips past it
(`i++`); otherwise the scan moves one token forward. -/
def parseArgs : List String → EnvArgs → EnvArgs
  | [], m => m
  | [_], m => m
  | a :: b :: rest, m =>
    if a = "--env" then parseArgs rest (applyPair m b)
    else parseArgs (b :: rest) m

/-- JavaScript truthiness of a `string | undefined` value: `undefined`
and the empty string are falsy, every other string is truthy. -/
def jsTruthy : Option String → Bool
  | none => false
  | some s => s != ""

/-- JavaScript `a || b` on `string | undefined` values: keeps `a` when
it is truthy, otherwise yields `b`. -/
def jsOr (a b : Option String) : Option String :=
  if jsTruthy a then a else b

/-- JavaScript `a || d` where `d` is a string literal default: the
final step of each fallback chain in `src/config.ts` lines 85-102. -/
def resolveStr (a : Option String) (d : String) : String :=
  match a with
  | none => d
  | some s => if s = "" then d else s

/-- `parseLogLevel` of `src/config.ts` lines 50-68: `undefined` and the
empty string are falsy and yield `ERROR`; otherwise the upper-cased
string is matched against the five level names, with `ERROR` as the
default of the switch.  The function is total: it never throws. -/
def parseLogLevel : Option String → LogLevel
  | none => LogLevel.ERROR
  | some s =>
    if s = "" then LogLevel.ERROR
    else if jsToUpper s = "TRACE" then LogLevel.TRACE
    else if jsToUpper s = "DEBUG" then LogLevel.DEBUG
    else if jsToUpper s = "INFO" then LogLevel.INFO
    else if jsToUpper s = "WARN" then LogLevel.WARN
    else if jsToUpper s = "ERROR" then LogLevel.ERROR
    else LogLevel.ERROR

/-- The disabled-tool coercion of `src/config.ts` lines 95-99:
`raw?.split(',').map(cmd => cmd.trim()).filter(cmd => cmd !== '') || []`.
A missing raw value yields the empty list; otherwise the string is cut
on commas, each piece trimmed, and empty pieces dropped (the resulting
array is always truthy, so the trailing `|| []` never replaces it). -/
def parseDisabledTools : Option String → List String
  | none => []
  | some s => ((jsSplit ',' s).map jsTrim).filter (fun cmd => cmd != "")

/-- The resolved configuration record (interface `Config` of
`src/config.ts` lines 71-81).  The `port` field always receives the
default `"3231"`, so it is modelled as a plain `String`. -/
structure Config where
  clickupApiKey : String
  clickupTeamId : String
  enableSponsorMessage : Bool
  documentSupport : String
  logLevel : LogLevel
  disabledTools : List String
  enableSSE : Bool
  enableOAuth : Bool
  port : String
deriving DecidableEq, Repr

/-- The `configuration` object literal of `src/config.ts` lines 84-103,
merging the CLI mapping `ea`, the environment `env` and the built-in
defaults field by field, exactly as the source's fallback chains do. -/
def configuration (ea : EnvArgs) (env : Env) : Config where
  clickupApiKey := resolveStr (jsOr ea.clickupApiKey env.CLICKUP_API_KEY) ""
  clickupTeamId := resolveStr (jsOr ea.clickupTeamId env.CLICKUP_TEAM_ID) ""
  enableSponsorMessage := env.ENABLE_SPONSOR_MESSAGE != some "false"
  documentSupport :=
    resolveStr (jsOr ea.documentSupport
      (jsOr env.DOCUMENT_SUPPORT (jsOr env.DOCUMENT_MODULE env.DOCUMENT_MODEL))) "false"
  logLevel := parseLogLevel (jsOr ea.logLevel env.LOG_LEVEL)
  disabledTools :=
    parseDisabledTools (jsOr ea.disabledTools (jsOr env.DISABLED_TOOLS env.DISABLED_COMMANDS))
  enableSSE := (ea.enableSSE == some "true") || (env.ENABLE_SSE == some "true") || false
  enableOAuth := (ea.enableOAuth == some "true") || (env.ENABLE_OAUTH == some "true") || false
  port := resolveStr (jsOr ea.port env.PORT) "3231"

/-- The filtered list of still-empty required fields (`missingEnvVars`
of `src/config.ts` lines 109-112): the JS property names of the two
required fields whose resolved string is falsy, i.e. empty. -/
def missingEnvVars (c : Config) : List String :=
  (["clickupApiKey", "clickupTeamId"]).filter (fun key =>
    if key = "clickupApiKey" then c.clickupApiKey == ""
    else if key = "clickupTeamId" then c.clickupTeamId == ""
    else false)

/-- The validation block of `src/config.ts` lines 108-117: skipped
entirely when OAuth mode is on; otherwise a single fatal error is
thrown naming every missing required field, joined with `", "`. -/
def validate (c : Config) : Except String Config :=
  if c.enableOAuth then Except.ok c
  else if (missingEnvVars c).length > 0 then
    Except.error ("Missing required environment variables: " ++
      String.intercalate ", " (missingEnvVars c))
  else Except.ok c

/-- The whole resolution pipeline starting from the already-tokenized
CLI mapping: build the `configuration` record, then validate it. -/
def loadConfig (ea : EnvArgs) (env : Env) : Except String Config :=
  validate (configuration ea env)

/-- The whole resolution pipeline starting from the raw invocation
arguments (`process.argv.slice(2)`). -/
def resolveConfig (args : List String) (env : Env) : Except String Config :=
  loadConfig (parseArgs args emptyEnvArgs) env

/-- Modelled from the spec: the spec-mandated resolution of a boolean
flag — evaluate CLI then environment, select the first value that is
present and non-empty, and coerce it (true iff the raw string is
exactly `"true"`); when no source supplies a non-empty value the flag
defaults to false.  Used to compare the spec's per-field first-match
rule with what the code computes for the SSE/OAuth flags. -/
def specResolveBool (cli envRaw : Option String) : Bool :=
  resolveStr (jsOr cli envRaw) "" == "true"

/-! ## Helper lemmas about the JS fallback primitives -/

/-- A truthy (non-empty) left operand is kept by `||`. -/
theorem jsOr_of_ne (s : String) (hs : s ≠ "") (b : Option String) : jsOr (some s) b = some s := by
  simp [jsOr, jsTruthy, hs]

/-- An undefined left operand falls through. -/
theorem jsOr_none_left (b : Option String) : jsOr none b = b := rfl

/-- An empty-string left operand is falsy and falls through. -/
theorem jsOr_empty_left (b : Option String) : jsOr (some "") b = b := by
  simp [jsOr, jsTruthy]

/-- A non-empty value survives the final default step. -/
theorem resolveStr_of_ne (s : String) (hs : s ≠ "") (d : String) :
    resolveStr (some s) d = s := by
  simp [resolveStr, hs]

/-- Closed form of `missingEnvVars`: the required-field names whose
resolved string is empty, in the source's fixed order. -/
theorem missingEnvVars_eq (c : Config) :
    missingEnvVars c =
      (if c.clickupApiKey = "" then ["clickupApiKey"] else []) ++
      (if c.clickupTeamId = "" then ["clickupTeamId"] else []) := by
  unfold missingEnvVars
  by_cases hA : c.clickupApiKey = "" <;> by_cases hT : c.clickupTeamId = ""
  · have hbA : (c.clickupApiKey == "") = true := by simp [hA]
    have hbT : (c.clickupTeamId == "") = true := by simp [hT]
    simp [List.filter, hbA, hbT, hA, hT]
  · have hbA : (c.clickupApiKey == "") = true := by simp [hA]
    have hbT : (c.clickupTeamId == "") = false := by simp [hT]
    simp [List.filter, hbA, hbT, hA, hT]
  · have hbA : (c.clickupApiKey == "") = false := by simp [hA]
    have hbT : (c.clickupTeamId == "") = true := by simp [hT]
    simp [List.filter, hbA, hbT, hA, hT]
  · have hbA : (c.clickupApiKey == "") = false := by simp [hA]
    have hbT : (c.clickupTeamId == "") = false := by simp [hT]
    simp [List.filter, hbA, hbT, hA, hT]

/-- Closed form of `validate`: the four possible outcomes of the
required-field check, with the exact aggregated error messages. -/
theorem validate_eq (c : Config) :
    validate c =
      if c.enableOAuth then Except.ok c
      else if c.clickupApiKey = "" then
        if c.clickupTeamId = "" then
          Except.error "Missing required environment variables: clickupApiKey, clickupTeamId"
        else Except.error "Missing required environment variables: clickupApiKey"
      else if c.clickupTeamId = "" then
        Except.error "Missing required environment variables: clickupTeamId"
      else Except.ok c := by
  unfold validate
  rw [missingEnvVars_eq]
  by_cases hO : c.enableOAuth <;> by_cases hA : c.clickupApiKey = "" <;>
    by_cases hT : c.clickupTeamId = "" <;>
    simp [hO, hA, hT] <;> rfl

/-! ## Claim theorems -/

/-- C1 counterexample: at the concrete input where the CLI supplies
`ENABLE_SSE=false` and the environment supplies `ENABLE_SSE=true`
(distinct values for the same canonical field), the code resolves the
SSE flag to `true`, whereas selecting the first present non-empty value
in CLI-then-environment order (the spec's rule, `specResolveBool`)
selects the CLI's `"false"` and coerces it to `false`.  The CLI value
is therefore not the resolved value for this canonical field. -/
theorem c1_first_match_counterexample :
    (configuration (parseArgs ["--env", "ENABLE_SSE=false"] emptyEnvArgs)
        { emptyEnv with ENABLE_SSE := some "true" }).enableSSE = true ∧
    (parseArgs ["--env", "ENABLE_SSE=false"] emptyEnvArgs).enableSSE = some "false" ∧
    specResolveBool (some "false") (some "true") = false := by
  decide

/-- C1 (amended): the string-valued fields resolved by fallback chains
(API key, team id, document support, log level, disabled tools, port)
evaluate CLI, then environment, then the built-in default, and select
the first present non-empty value — a non-empty CLI value wins, an
absent or empty CLI value falls through, and the default is taken when
all sources are absent or empty.  The SSE- and OAuth-enable flags are
the exception: each source is independently compared to `"true"` and
the results are OR-ed, so an environment `"true"` yields `true` even
when the CLI supplies a different non-empty value. -/
theorem c1_precedence_amended (ea : EnvArgs) (env : Env) (s : String) (hs : s ≠ "") :
    (ea.clickupTeamId = some s → (configuration ea env).clickupTeamId = s) ∧
    ((ea.clickupTeamId = none ∨ ea.clickupTeamId = some "") →
      env.CLICKUP_TEAM_ID = some s → (configuration ea env).clickupTeamId = s) ∧
    ((ea.clickupTeamId = none ∨ ea.clickupTeamId = some "") →
      (env.CLICKUP_TEAM_ID = none ∨ env.CLICKUP_TEAM_ID = some "") →
      (configuration ea env).clickupTeamId = "") ∧
    (ea.clickupApiKey = some s → (configuration ea env).clickupApiKey = s) ∧
    ((ea.clickupApiKey = none ∨ ea.clickupApiKey = some "") →
      env.CLICKUP_API_KEY = some s → (configuration ea env).clickupApiKey = s) ∧
    (ea.documentSupport = some s → (configuration ea env).documentSupport = s) ∧
    (ea.logLevel = some s → (configuration ea env).logLevel = parseLogLevel (some s)) ∧
    ((ea.logLevel = none ∨ ea.logLevel = some "") →
      (configuration ea env).logLevel = parseLogLevel env.LOG_LEVEL) ∧
    (ea.disabledTools = some s →
      (configuration ea env).disabledTools = parseDisabledTools (some s)) ∧
    (ea.port = some s → (configuration ea env).port = s) ∧
    ((ea.port = none ∨ ea.port = some "") → (env.PORT = none ∨ env.PORT = some "") →
      (configuration ea env).port = "3231") ∧
    ((configuration ea env).enableSSE =
      ((ea.enableSSE == some "true") || (env.ENABLE_SSE == some "true"))) ∧
    ((configuration ea env).enableOAuth =
      ((ea.enableOAuth == some "true") || (env.ENABLE_OAUTH == some "true"))) := by
  refine ⟨?_, ?_, ?_, ?_, ?_, ?_, ?_, ?_, ?_, ?_, ?_, ?_, ?_⟩
  · intro h
    simp [configuration, h, jsOr_of_ne s hs, resolveStr_of_ne s hs]
  · rintro (h | h) h2 <;>
      simp [configuration, h, h2, jsOr_none_left, jsOr_empty_left, jsOr_of_ne s hs,
        resolveStr_of_ne s hs]
  · rintro (h | h) (h2 | h2) <;>
      simp [configuration, h, h2, jsOr_none_left, jsOr_empty_left, resolveStr]
  · intro h
    simp [configuration, h, jsOr_of_ne s hs, resolveStr_of_ne s hs]
  · rintro (h | h) h2 <;>
      simp [configuration, h, h2, jsOr_none_left, jsOr_empty_left, jsOr_of_ne s hs,
        resolveStr_of_ne s hs]
  · intro h
    simp [configuration, h, jsOr_of_ne s hs, resolveStr_of_ne s hs]
  · intro h
    simp [configuration, h, jsOr_of_ne s hs]
  · rintro (h | h) <;> simp [configuration, h, jsOr_none_left, jsOr_empty_left]
  · intro h
    simp [configuration, h, jsOr_of_ne s hs]
  · intro h
    simp [configuration, h, jsOr_of_ne s hs, resolveStr_of_ne s hs]
  · rintro (h | h) (h2 | h2) <;>
      simp [configuration, h, h2, jsOr_none_left, jsOr_empty_left, resolveStr]
  · simp [configuration]
  · simp [configuration]

/-- C1 witness: CLI team id `"A"` beats environment team id `"B"`. -/
theorem c1_precedence_witness :
    (configuration { emptyEnvArgs with clickupTeamId := some "A" }
      { emptyEnv with CLICKUP_TEAM_ID := some "B" }).clickupTeamId = "A" :=
  (c1_precedence_amended { emptyEnvArgs with clickupTeamId := some "A" }
    { emptyEnv with CLICKUP_TEAM_ID := some "B" } "A" (by decide)).1 rfl

/-- C2: resolution fails exactly when the resolved OAuth flag is false
and at least one of API key / team id resolved to the empty string; the
single fatal error names every missing field (both names, in order,
when both are empty), and with OAuth enabled resolution succeeds and
returns the resolved record unchanged, empty credentials included. -/
theorem c2_required_validation (ea : EnvArgs) (env : Env) :
    ((∃ e, loadConfig ea env = Except.error e) ↔
      (configuration ea env).enableOAuth = false ∧
        ((configuration ea env).clickupApiKey = "" ∨ (configuration ea env).clickupTeamId = "")) ∧
    ((configuration ea env).enableOAuth = true →
      loadConfig ea env = Except.ok (configuration ea env)) ∧
    ((configuration ea env).enableOAuth = false → (configuration ea env).clickupApiKey = "" →
      (configuration ea env).clickupTeamId = "" →
      loadConfig ea env =
        Except.error "Missing required environment variables: clickupApiKey, clickupTeamId") ∧
    ((configuration ea env).enableOAuth = false → (configuration ea env).clickupApiKey = "" →
      (configuration ea env).clickupTeamId ≠ "" →
      loadConfig ea env = Except.error "Missing required environment variables: clickupApiKey") ∧
    ((configuration ea env).enableOAuth = false → (configuration ea env).clickupApiKey ≠ "" →
      (configuration ea env).clickupTeamId = "" →
      loadConfig ea env = Except.error "Missing required environment variables: clickupTeamId") := by
  have main : ∀ c : Config,
      ((∃ e, validate c = Except.error e) ↔
        c.enableOAuth = false ∧ (c.clickupApiKey = "" ∨ c.clickupTeamId = "")) ∧
      (c.enableOAuth = true → validate c = Except.ok c) ∧
      (c.enableOAuth = false → c.clickupApiKey = "" → c.clickupTeamId = "" →
        validate c =
          Except.error "Missing required environment variables: clickupApiKey, clickupTeamId") ∧
      (c.enableOAuth = false → c.clickupApiKey = "" → c.clickupTeamId ≠ "" →
        validate c = Except.error "Missing required environment variables: clickupApiKey") ∧
      (c.enableOAuth = false → c.clickupApiKey ≠ "" → c.clickupTeamId = "" →
        validate c = Except.error "Missing required environment variables: clickupTeamId") := by
    intro c
    rw [validate_eq]
    by_cases hO : c.enableOAuth <;> by_cases hA : c.clickupApiKey = "" <;>
      by_cases hT : c.clickupTeamId = "" <;>
      simp [hO, hA, hT]
  exact main (configuration ea env)

/-- C2 witness: with nothing supplied and OAuth off, resolution fails
naming both required fields. -/
theorem c2_required_validation_witness :
    loadConfig emptyEnvArgs emptyEnv =
      Except.error "Missing required environment variables: clickupApiKey, clickupTeamId" :=
  (c2_required_validation emptyEnvArgs emptyEnv).2.2.1 rfl rfl rfl

/-- C3 counterexample: for the token `CLICKUP_API_KEY=a=b` the
extracted value is `"a"` — the segment between the first and second
`=` — not `"a=b"` as the claim states. -/
theorem c3_split_counterexample :
    (parseArgs ["--env", "CLICKUP_API_KEY=a=b"] emptyEnvArgs).clickupApiKey = some "a" ∧
    (parseArgs ["--env", "CLICKUP_API_KEY=a=b"] emptyEnvArgs).clickupApiKey ≠ some "a=b" := by
  decide

/-- C3 (amended): the tokenizer recognizes a `--env` flag followed
immediately by a KEY=VALUE token and splits that token on every `=`,
keeping the first segment as key and the second segment as value; for
a value containing `=` everything from the second `=` on is discarded,
so `--env CLICKUP_API_KEY=a=b` yields the value `a`. -/
theorem c3_second_segment_amended (m : EnvArgs) (tok v : String)
    (h : splitEq tok = ("CLICKUP_API_KEY", some v)) :
    (parseArgs ["--env", tok] m).clickupApiKey = some v ∧
    splitEq "CLICKUP_API_KEY=a=b" = ("CLICKUP_API_KEY", some "a") ∧
    jsSplit '=' "CLICKUP_API_KEY=a=b" = ["CLICKUP_API_KEY", "a", "b"] := by
  refine ⟨?_, by decide, by decide⟩
  simp [parseArgs, applyPair, h]

/-- C3 witness: a pair whose split yields key `CLICKUP_API_KEY` and
second segment `key` stores exactly that second segment. -/
theorem c3_second_segment_witness :
    (parseArgs ["--env", "CLICKUP_API_KEY=key=tail"] emptyEnvArgs).clickupApiKey = some "key" :=
  (c3_second_segment_amended emptyEnvArgs "CLICKUP_API_KEY=key=tail" "key" (by decide)).1

/-- C4 counterexample: supplying `DOCUMENT_SUPPORT=a` and
`DOCUMENT_MODEL=b` simultaneously keeps `"b"` when they arrive as CLI
pairs (the later pair overwrites the shared field) but keeps `"a"`
when they arrive as environment variables (first non-empty in the
chain) — the kept value is not the first in a fixed scan order for the
CLI source, and the two sources do not behave identically. -/
theorem c4_synonym_counterexample :
    (parseArgs ["--env", "DOCUMENT_SUPPORT=a", "--env", "DOCUMENT_MODEL=b"]
      emptyEnvArgs).documentSupport = some "b" ∧
    (configuration emptyEnvArgs
      { emptyEnv with DOCUMENT_SUPPORT := some "a", DOCUMENT_MODEL := some "b" }).documentSupport
      = "a" ∧
    (configuration (parseArgs ["--env", "DOCUMENT_SUPPORT=a", "--env", "DOCUMENT_MODEL=b"]
      emptyEnvArgs) emptyEnv).documentSupport = "b" := by
  decide

/-- C4 (amended): for the environment source, synonym groups resolve
first-match-wins in the scan order `DOCUMENT_SUPPORT`,
`DOCUMENT_MODULE`, `DOCUMENT_MODEL` (resp. `DISABLED_TOOLS`,
`DISABLED_COMMANDS`); for the CLI source every alias writes the same
field in argument order, so when several alias pairs are supplied the
last one wins, regardless of which alias it uses. -/
theorem c4_synonym_amended (ea : EnvArgs) (env : Env) (a : String) (ha : a ≠ "") :
    (ea.documentSupport = none → env.DOCUMENT_SUPPORT = some a →
      (configuration ea env).documentSupport = a) ∧
    (ea.documentSupport = none → env.DOCUMENT_SUPPORT = none → env.DOCUMENT_MODULE = some a →
      (configuration ea env).documentSupport = a) ∧
    (ea.documentSupport = none → env.DOCUMENT_SUPPORT = none → env.DOCUMENT_MODULE = none →
      env.DOCUMENT_MODEL = some a → (configuration ea env).documentSupport = a) ∧
    (ea.disabledTools = none → env.DISABLED_TOOLS = some a →
      (configuration ea env).disabledTools = parseDisabledTools (some a)) ∧
    (ea.disabledTools = none → env.DISABLED_TOOLS = none → env.DISABLED_COMMANDS = some a →
      (configuration ea env).disabledTools = parseDisabledTools (some a)) ∧
    (∀ m : EnvArgs,
      (parseArgs ["--env", "DOCUMENT_SUPPORT=a", "--env", "DOCUMENT_MODEL=b"] m).documentSupport
        = some "b") := by
  refine ⟨?_, ?_, ?_, ?_, ?_, fun m => rfl⟩
  · intro h h2
    simp [configuration, h, h2, jsOr_none_left, jsOr_of_ne a ha, resolveStr_of_ne a ha]
  · intro h h2 h3
    simp [configuration, h, h2, h3, jsOr_none_left, jsOr_of_ne a ha, resolveStr_of_ne a ha]
  · intro h h2 h3 h4
    simp [configuration, h, h2, h3, h4, jsOr_none_left, jsOr_of_ne a ha, resolveStr_of_ne a ha]
  · intro h h2
    simp [configuration, h, h2, jsOr_none_left, jsOr_of_ne a ha]
  · intro h h2 h3
    simp [configuration, h, h2, h3, jsOr_none_left, jsOr_of_ne a ha]

/-- C4 witness: with only `DOCUMENT_MODULE` set in the environment, the
resolved document-support value is that variable's value. -/
theorem c4_synonym_witness :
    (configuration emptyEnvArgs { emptyEnv with DOCUMENT_MODULE := some "x" }).documentSupport
      = "x" :=
  (c4_synonym_amended emptyEnvArgs { emptyEnv with DOCUMENT_MODULE := some "x" } "x"
    (by decide)).2.1 rfl rfl rfl

/-- C5: each of the SSE- and OAuth-enable flags resolves to true
exactly when one of its two raw sources is the exact string `"true"`;
`"TRUE"`, `"True"`, `"1"` and absence all coerce to false, and the
coercion is a total function — no input is rejected. -/
theorem c5_boolean_strict_true (ea : EnvArgs) (env : Env) :
    ((configuration ea env).enableSSE = true ↔
      ea.enableSSE = some "true" ∨ env.ENABLE_SSE = some "true") ∧
    ((configuration ea env).enableOAuth = true ↔
      ea.enableOAuth = some "true" ∨ env.ENABLE_OAUTH = some "true") ∧
    (configuration emptyEnvArgs { emptyEnv with ENABLE_SSE := some "TRUE" }).enableSSE = false ∧
    (configuration emptyEnvArgs { emptyEnv with ENABLE_SSE := some "True" }).enableSSE = false ∧
    (configuration emptyEnvArgs { emptyEnv with ENABLE_SSE := some "1" }).enableSSE = false ∧
    (configuration emptyEnvArgs emptyEnv).enableSSE = false ∧
    (configuration emptyEnvArgs { emptyEnv with ENABLE_SSE := some "true" }).enableSSE = true := by
  refine ⟨?_, ?_, by decide, by decide, by decide, by decide, by decide⟩ <;> simp [configuration]

/-- C5 witness: a CLI-supplied exact `"true"` resolves the SSE flag to
true. -/
theorem c5_boolean_strict_true_witness :
    (configuration { emptyEnvArgs with enableSSE := some "true" } emptyEnv).enableSSE = true :=
  (c5_boolean_strict_true { emptyEnvArgs with enableSSE := some "true" } emptyEnv).1.mpr
    (Or.inl rfl)

/-- C6: log-level parsing matches the five level names
case-insensitively (`"debug"`, `"DEBUG"`, `"Debug"` all yield `DEBUG`),
and every unrecognized string (e.g. `"verbose"`) or an absent value
yields `ERROR`; `parseLogLevel` is a total function, so no input ever
raises an error. -/
theorem c6_log_level_parsing :
    parseLogLevel (some "debug") = LogLevel.DEBUG ∧
    parseLogLevel (some "DEBUG") = LogLevel.DEBUG ∧
    parseLogLevel (some "Debug") = LogLevel.DEBUG ∧
    parseLogLevel (some "verbose") = LogLevel.ERROR ∧
    parseLogLevel none = LogLevel.ERROR ∧
    (configuration (parseArgs ["--env", "LOG_LEVEL=Debug"] emptyEnvArgs) emptyEnv).logLevel =
      LogLevel.DEBUG ∧
    (∀ s : String, jsToUpper s = "TRACE" → parseLogLevel (some s) = LogLevel.TRACE) ∧
    (∀ s : String, jsToUpper s = "DEBUG" → parseLogLevel (some s) = LogLevel.DEBUG) ∧
    (∀ s : String, jsToUpper s = "INFO" → parseLogLevel (some s) = LogLevel.INFO) ∧
    (∀ s : String, jsToUpper s = "WARN" → parseLogLevel (some s) = LogLevel.WARN) ∧
    (∀ s : String, jsToUpper s = "ERROR" → parseLogLevel (some s) = LogLevel.ERROR) ∧
    (∀ s : String, jsToUpper s ∉ (["TRACE", "DEBUG", "INFO", "WARN", "ERROR"] : List String) →
      parseLogLevel (some s) = LogLevel.ERROR) := by
  refine ⟨by decide, by decide, by decide, by decide, rfl, by decide, ?_, ?_, ?_, ?_, ?_, ?_⟩
  · intro s h
    have hs : s ≠ "" := by intro he; subst he; simp [jsToUpper] at h
    simp [parseLogLevel, hs, h]
  · intro s h
    have hs : s ≠ "" := by intro he; subst he; simp [jsToUpper] at h
    simp [parseLogLevel, hs, h]
  · intro s h
    have hs : s ≠ "" := by intro he; subst he; simp [jsToUpper] at h
    simp [parseLogLevel, hs, h]
  · intro s h
    have hs : s ≠ "" := by intro he; subst he; simp [jsToUpper] at h
    simp [parseLogLevel, hs, h]
  · intro s h
    have hs : s ≠ "" := by intro he; subst he; simp [jsToUpper] at h
    simp [parseLogLevel, hs, h]
  · intro s h
    simp only [List.mem_cons, List.not_mem_nil, not_or, or_false] at h
    obtain ⟨h1, h2, h3, h4, h5⟩ := h
    by_cases hs : s = ""
    · subst hs
      simp [parseLogLevel]
    · simp [parseLogLevel, hs, h1, h2, h3, h4, h5]

/-- C6 witness: the mixed-case `"tRaCe"` upper-cases to `"TRACE"` and
parses to `TRACE`. -/
theorem c6_log_level_parsing_witness : parseLogLevel (some "tRaCe") = LogLevel.TRACE :=
  c6_log_level_parsing.2.2.2.2.2.2.1 "tRaCe" (by decide)

/-- C7: disabled-tool parsing splits on commas, trims each element,
drops elements that are empty after trimming, and keeps the surviving
elements in input order without deduplication (the result is a sublist
of the trimmed segments and contains no empty string); an absent raw
value yields the empty list, and `" a, b ,,c "` yields exactly
`["a", "b", "c"]`. -/
theorem c7_disabled_tools_parsing :
    (configuration (parseArgs ["--env", "DISABLED_TOOLS= a, b ,,c "] emptyEnvArgs)
      emptyEnv).disabledTools = ["a", "b", "c"] ∧
    parseDisabledTools (some " a, b ,,c ") = ["a", "b", "c"] ∧
    parseDisabledTools none = [] ∧
    (configuration emptyEnvArgs emptyEnv).disabledTools = [] ∧
    parseDisabledTools (some " a,a , b") = ["a", "a", "b"] ∧
    (∀ s : String, List.Sublist (parseDisabledTools (some s)) ((jsSplit ',' s).map jsTrim)) ∧
    (∀ s x : String, x ∈ parseDisabledTools (some s) → x ≠ "") := by
  refine ⟨by decide, by decide, rfl, by decide, by decide, ?_, ?_⟩
  · intro s
    simp only [parseDisabledTools]
    exact List.filter_sublist _
  · intro s x hx
    simp only [parseDisabledTools, List.mem_filter] at hx
    simpa using hx.2

/-- C7 witness: the element `"a"` of a parsed list is non-empty. -/
theorem c7_disabled_tools_parsing_witness : ("a" : String) ≠ "" :=
  c7_disabled_tools_parsing.2.2.2.2.2.2 " a, b" "a" (by decide)

/-- C8: the sponsor-message flag is true unless the environment value
`ENABLE_SPONSOR_MESSAGE` is exactly `"false"`, and for every CLI
argument sequence the resolved flag equals the one resolved with no
CLI arguments at all — the tokenizer has no field for this variable,
so the CLI can never influence it. -/
theorem c8_sponsor_env_only (args : List String) (env : Env) :
    ((configuration (parseArgs args emptyEnvArgs) env).enableSponsorMessage = true ↔
      env.ENABLE_SPONSOR_MESSAGE ≠ some "false") ∧
    (configuration (parseArgs args emptyEnvArgs) env).enableSponsorMessage =
      (configuration emptyEnvArgs env).enableSponsorMessage := by
  constructor
  · simp [configuration]
  · rfl

/-- C8 witness: even a CLI pair `ENABLE_SPONSOR_MESSAGE=false` leaves
the flag true when the environment does not set it. -/
theorem c8_sponsor_env_only_witness :
    (configuration (parseArgs ["--env", "ENABLE_SPONSOR_MESSAGE=false"] emptyEnvArgs)
      emptyEnv).enableSponsorMessage = true :=
  (c8_sponsor_env_only ["--env", "ENABLE_SPONSOR_MESSAGE=false"] emptyEnv).1.mpr (by decide)

/-- C9: supplying only `DOCUMENT_MODEL=true` resolves document support
to the same value as supplying only `DOCUMENT_SUPPORT=true`, both when
the pair arrives on the CLI and when the variable is set in the
environment; that common value is the string `"true"`. -/
theorem c9_document_alias_equivalence :
    (configuration (parseArgs ["--env", "DOCUMENT_MODEL=true"] emptyEnvArgs)
        emptyEnv).documentSupport =
      (configuration (parseArgs ["--env", "DOCUMENT_SUPPORT=true"] emptyEnvArgs)
        emptyEnv).documentSupport ∧
    (configuration emptyEnvArgs { emptyEnv with DOCUMENT_MODEL := some "true" }).documentSupport =
      (configuration emptyEnvArgs
        { emptyEnv with DOCUMENT_SUPPORT := some "true" }).documentSupport ∧
    (configuration (parseArgs ["--env", "DOCUMENT_MODEL=true"] emptyEnvArgs)
      emptyEnv).documentSupport = "true" ∧
    (configuration emptyEnvArgs { emptyEnv with DOCUMENT_MODEL := some "true" }).documentSupport =
      "true" := by
  decide

/-- C10: in the argument sequence `["--env", "--env",
"CLICKUP_API_KEY=x"]` the second `--env` is consumed as the KEY=VALUE
token (its key `--env` matches no recognized name) and the scan skips
past it, so the well-formed pair after it contributes nothing: the
tokenizer output is the empty mapping and the API key resolves to the
empty string — although the same pair on its own would be recognized. -/
theorem c10_env_env_pair_dropped :
    parseArgs ["--env", "--env", "CLICKUP_API_KEY=x"] emptyEnvArgs = emptyEnvArgs ∧
    (configuration (parseArgs ["--env", "--env", "CLICKUP_API_KEY=x"] emptyEnvArgs)
      emptyEnv).clickupApiKey = "" ∧
    (parseArgs ["--env", "CLICKUP_API_KEY=x"] emptyEnvArgs).clickupApiKey = some "x" := by
  decide
